import Mathlib

/-!
Verification of the Udacity Trivia API backend (src/backend/flaskr/__init__.py)
against its natural-language specification.

The handlers are shallowly embedded as pure functions over an explicit
database state.  HTTP responses are modelled as `Resp R`: `.error c` is a
response produced through the Flask error machinery with status code `c`, and
`.ok r` is a 200 response with JSON body `r`.

Parts of the repository that the handlers use but that are not included in
the sources (the SQLAlchemy `models.py` with `Question.format`, and the Flask
request-parsing helpers) are modelled from the spec; each such definition
carries a doc comment saying so.
-/

namespace Trivia

/-- A row of the `Question` table (spec section 3: id, question text, answer
text, category foreign key - unenforced -, difficulty). -/
structure Question where
  id : Int
  question : String
  answer : String
  category : Int
  difficulty : Int
deriving DecidableEq

/-- A row of the `Category` table (spec section 3: id, type label). -/
structure Category where
  id : Int
  type : String
deriving DecidableEq

/-- The relational store: the two tables, in storage order. -/
structure DB where
  questions : List Question
  categories : List Category
deriving DecidableEq

/-- Modelled from the spec (section 4.8): `Question.format()` lives in
`models.py`, which is not part of the included sources.  The spec describes
it as a flat field projection (id, question text, answer text, category id,
difficulty, no nesting) - in Python, a dict. -/
structure FormattedQuestion where
  id : Int
  question : String
  answer : String
  category : Int
  difficulty : Int
deriving DecidableEq

/-- `Question.format()`: the flat field projection of a question row. -/
def Question.format (q : Question) : FormattedQuestion :=
  { id := q.id, question := q.question, answer := q.answer,
    category := q.category, difficulty := q.difficulty }

/-- Insert a question into a list sorted by `id` (helper for the embedding of
the `order_by(Question.id)` of the store). -/
def insertById (q : Question) : List Question → List Question
  | [] => [q]
  | x :: xs => if q.id ≤ x.id then q :: x :: xs else x :: insertById q xs

/-- The `Question.query.order_by(Question.id).all()` scan of the store: the
question rows sorted by id. -/
def orderById (qs : List Question) : List Question :=
  qs.foldr insertById []

/-- Insert a category into a list sorted by `id`. -/
def insertCatById (c : Category) : List Category → List Category
  | [] => [c]
  | x :: xs => if c.id ≤ x.id then c :: x :: xs else x :: insertCatById c xs

/-- The `Category.query.order_by(Category.id).all()` scan of the store. -/
def orderByIdCat (cs : List Category) : List Category :=
  cs.foldr insertCatById []

/-- Clamp a (possibly negative) Python index into `[0, n]`, exactly as
CPython does for slice bounds: a negative index counts from the end (and is
clamped below at 0), a non-negative one is clamped above at `n`. -/
def pyClamp (n : Nat) (i : Int) : Nat :=
  if i < 0 then (i + n).toNat else min i.toNat n

/-- Python list slicing `l[start:stop]` (step 1): both bounds are clamped by
`pyClamp` and the slice is the elements at clamped indices
`[start, stop)`. -/
def pySlice {α : Type} (l : List α) (start stop : Int) : List α :=
  let s := pyClamp l.length start
  let e := pyClamp l.length stop
  (l.drop s).take (e - s)

/-- `QUESTIONS_PER_PAGE` from the source. -/
def QUESTIONS_PER_PAGE : Int := 10

/-- `paginate_questions(request, selection)` from the source.  The `page`
argument is the already-coerced value of the `page` query parameter (the
source reads it inside the helper via `request.args.get`; see
`getPageArg`).  `start = (page - 1) * QUESTIONS_PER_PAGE`,
`end = start + QUESTIONS_PER_PAGE`, and the result is the Python slice
`[format(q) for q in selection][start:end]`. -/
def paginate_questions (page : Int) (selection : List Question) : List FormattedQuestion :=
  let start := (page - 1) * QUESTIONS_PER_PAGE
  let questions := selection.map Question.format
  pySlice questions start (start + QUESTIONS_PER_PAGE)

/-- Modelled from the spec (section 4.1): the Flask call
`request.args.get("page", 1, type=int)` (Flask is not part of the included
sources) returns the query parameter coerced to int, with default 1 when the
parameter is missing or not coercible.  `none` models a missing or
non-integer `page` argument. -/
def getPageArg (raw : Option Int) : Int :=
  raw.getD 1

/-- An HTTP response: a 200 JSON body, or an error response with the given
status code, rendered through `errorhandler` when one is registered. -/
inductive Resp (α : Type) where
  | ok : α → Resp α
  | error : Nat → Resp α
deriving DecidableEq

/-- Response body of `GET /categories`. -/
structure CategoriesResp where
  success : Bool
  categories : List (Int × String)
deriving DecidableEq

/-- `retrieve_categories` (`GET /categories`). -/
def retrieve_categories (db : DB) : Resp CategoriesResp :=
  let categories := orderByIdCat db.categories
  let categories_dict := categories.map (fun c => (c.id, c.type))
  if categories.length = 0 then .error 404
  else .ok { success := true, categories := categories_dict }

/-- Response body of `GET /questions`. -/
structure QuestionsResp where
  success : Bool
  questions : List FormattedQuestion
  total_questions : Nat
  categories : List (Int × String)
  current_category : Option Int
deriving DecidableEq

/-- `retrieve_questions` (`GET /questions?page=N`): order all questions by
id, paginate, 404 when the page slice is empty, otherwise 200 with the page,
the count of ALL questions, the category mapping and a null current
category. -/
def retrieve_questions (page : Int) (db : DB) : Resp QuestionsResp :=
  let selection := orderById db.questions
  let current_questions := paginate_questions page selection
  let categories_dict := (orderByIdCat db.categories).map (fun c => (c.id, c.type))
  if current_questions.length = 0 then .error 404
  else
    .ok { success := true, questions := current_questions,
          total_questions := selection.length,
          categories := categories_dict, current_category := none }

/-- Response body of `DELETE /questions/{id}`. -/
structure DeleteResp where
  success : Bool
  deleted : Int
deriving DecidableEq

/-- `delete_question` (`DELETE /questions/{id}`).  The whole handler body is
wrapped in `try: ... except: abort(422)`.  `one_or_none()` yields the row
when exactly one matches, `None` when none does (in which case the handler
calls `abort(404)`), and raises `MultipleResultsFound` when several do.
Crucially, `abort(404)` raises an exception INSIDE the `try`, so the bare
`except` catches it and re-raises as 422: the 404 never reaches the
client. -/
def delete_question (question_id : Int) (db : DB) : Resp (DeleteResp × DB) :=
  match db.questions.filter (fun q => q.id == question_id) with
  | [] => .error 422
  | [_] =>
      .ok ({ success := true, deleted := question_id },
           { db with questions := db.questions.filter (fun q => !(q.id == question_id)) })
  | _ => .error 422

/-- The result of `POST /questions` (`search_questions` in the source): the
search branch returns `{questions, total_questions}` with no success flag;
the create branch returns `{success}` only. -/
inductive PostQuestionsResult where
  | search (questions : List FormattedQuestion) (total_questions : Nat)
  | created (success : Bool)
deriving DecidableEq

/-- The body of `POST /questions`.  `searchTerm = none` models the key being
absent or JSON null (`body.get(searchTerm, None)` in the source yields Python `None` in
both cases). -/
structure PostQuestionsBody where
  searchTerm : Option String
  question : Option String
  answer : Option String
  category : Option Int
  difficulty : Option Int
deriving DecidableEq

/-- Does `needle` occur at the very start of `hay`? -/
def matchesAtStart {α : Type} [DecidableEq α] : List α → List α → Bool
  | [], _ => true
  | _ :: _, [] => false
  | n :: ns, h :: hs => if n = h then matchesAtStart ns hs else false

/-- Does `needle` occur anywhere inside `hay`? -/
def matchesSomewhere {α : Type} [DecidableEq α] (needle : List α) : List α → Bool
  | [] => needle.isEmpty
  | h :: hs => matchesAtStart needle (h :: hs) || matchesSomewhere needle hs

/-- SQLAlchemy `Question.question.contains(term)`: SQL `LIKE
concat(concat(CHR(37), term), CHR(37))`, i.e. substring containment of
`term` in the question text. -/
def strContains (hay needle : String) : Bool :=
  matchesSomewhere needle.toList hay.toList

/-- `search_questions` (`POST /questions`), the dual-behaviour endpoint.  If
`searchTerm` is present and non-null (even the empty string), the search
branch filters questions whose text contains the term and returns them with
their count; otherwise a new question row is inserted (the store-assigned id of the new
row is outside this embedding; no claim depends on it) and only a
success flag is returned. -/
def search_questions (body : PostQuestionsBody) (db : DB) : PostQuestionsResult :=
  match body.searchTerm with
  | some search =>
      let question := db.questions.filter (fun q => strContains q.question search)
      .search (question.map Question.format) question.length
  | none => .created true

/-- Response body of `GET /categories/{id}/questions`. -/
structure CatQuestionsResp where
  success : Bool
  questions : List FormattedQuestion
  total_questions : Nat
  current_category : Int
deriving DecidableEq

/-- `questions_by_category` (`GET /categories/{id}/questions`):
`Category.query.get(id)` then the questions with that category value,
ordered by id and paginated.  404 only when the category row is absent;
there is no empty-page check. -/
def questions_by_category (category_id : Int) (page : Int) (db : DB) :
    Resp CatQuestionsResp :=
  let category := db.categories.find? (fun c => c.id == category_id)
  let selection := orderById (db.questions.filter (fun q => q.category == category_id))
  let current_questions := paginate_questions page selection
  if category.isNone then .error 404
  else
    .ok { success := true, questions := current_questions,
          total_questions := selection.length, current_category := category_id }

/-- The parsed JSON body of `POST /quizzes`.
`previous_questions = none` models the key being absent (the source indexes
`body["previous_questions"]`, so absence raises `KeyError`).
`quiz_category`: outer `none` = key absent; `some none` = JSON null;
`some (some n)` = the integer `n`.  `otherKeys` records whether the dict
holds any further keys - it matters only for the truthiness of the dict in
`if body:`. -/
structure QuizBody where
  previous_questions : Option (List Int)
  quiz_category : Option (Option Int)
  otherKeys : Bool
deriving DecidableEq

/-- Python truthiness of the parsed body dict: a dict is truthy iff it is
non-empty. -/
def QuizBody.truthy (b : QuizBody) : Bool :=
  b.previous_questions.isSome || b.quiz_category.isSome || b.otherKeys

/-- Python truthiness of the `quiz_category` value (`if quiz_category:`):
JSON null and 0 are falsy, any other integer is truthy. -/
def quizCatTruthy (qc : Option Int) : Bool :=
  match qc with
  | none => false
  | some n => n != 0

/-- The eligible-question selection of `get_quiz` (source lines 222-227):
when `quiz_category` is truthy, `filter_by(category=quiz_category)` plus the
exclusion filter; otherwise only the exclusion filter
`~Question.id.in_(previous_questions)`.  The subsequent
`order_by(random())` permutes the rows but the handler only ever inspects
the emptiness of the result, so the selection is embedded in store order. -/
def quizSelection (qc : Option Int) (pq : List Int) (db : DB) : List Question :=
  if quizCatTruthy qc then
    db.questions.filter (fun q => q.category == qc.getD 0 && !(pq.contains q.id))
  else
    db.questions.filter (fun q => !(pq.contains q.id))

/-- Python set construction over the formatted rows:
`{obj.format() for obj in questions}` builds a SET.  `Question.format()`
returns a dict (see `FormattedQuestion`), and dicts are unhashable in
Python, so inserting the first element raises `TypeError`; only the empty
comprehension succeeds.  `none` models the raised `TypeError`. -/
def pySetOfFormats (qs : List Question) : Option (List FormattedQuestion) :=
  match qs with
  | [] => some []
  | _ => none

/-- Response body of `POST /quizzes`.  `question = none` is JSON null. -/
structure QuizResp where
  success : Bool
  question : Option (List FormattedQuestion)
deriving DecidableEq

/-- `get_quiz` (`POST /quizzes`).  The body argument: `none` models an
absent/unparseable request body - modelled from the spec: the Flask call
`request.get_json()` (Flask is not part of the included sources) signals
"bad request" (400) there, and the call sits on line 216, before the `try`.
Inside the `try`, a falsy (empty) body dict skips the whole `if body:`
block, so the view returns Python `None`; Flask turns a `None` return into
an internal error response (500, no handler registered).  A truthy body is
indexed with `body["previous_questions"]` and `body["quiz_category"]`;
`KeyError` is caught by the bare `except` as 400.  With both keys present
the eligible rows are selected; when any exist, the set comprehension
raises `TypeError` (see `pySetOfFormats`), again caught as 400, and only
the no-eligible-row path reaches the success response, with a null
question. -/
def get_quiz (body : Option QuizBody) (db : DB) : Resp QuizResp :=
  match body with
  | none => .error 400
  | some b =>
      if b.truthy then
        match b.previous_questions, b.quiz_category with
        | some previous_questions, some quiz_category =>
            let questions := quizSelection quiz_category previous_questions db
            if 0 < questions.length then
              match pySetOfFormats questions with
              | some question_dict => .ok { success := true, question := some question_dict }
              | none => .error 400
            else
              .ok { success := true, question := none }
        | _, _ => .error 400
      else
        .error 500

/-- The error envelope of the registered Flask error handlers. -/
structure ErrorEnvelope where
  success : Bool
  error : Nat
  message : String
deriving DecidableEq

/-- The error handlers registered by `create_app` (source lines 245-268):
404, 422, 400 and 405, each returning the common envelope.  No handler is
registered for any other code - in particular not for 500 - so those
responses fall back to the framework default (an HTML error page, not the
JSON envelope); `none` models that fallback. -/
def errorhandler (code : Nat) : Option ErrorEnvelope :=
  if code = 404 then some { success := false, error := 404, message := "resource not found" }
  else if code = 422 then some { success := false, error := 422, message := "unprocessable" }
  else if code = 400 then some { success := false, error := 400, message := "bad request" }
  else if code = 405 then some { success := false, error := 405, message := "method not allowed" }
  else none

/-! Concrete stores and inputs used by witnesses and counterexamples. -/

/-- A store with one question (id 5, category 1) and one category. -/
def db1 : DB :=
  { questions := [{ id := 5, question := "What?", answer := "Yes", category := 1, difficulty := 2 }],
    categories := [{ id := 1, type := "Science" }] }

/-- The empty store. -/
def emptyDB : DB :=
  { questions := [], categories := [] }

/-- A store with a category but no questions. -/
def catOnlyDB : DB :=
  { questions := [], categories := [{ id := 1, type := "Science" }] }

/-- Twenty distinct questions, for the negative-page slicing claims. -/
def qs20 : List Question :=
  (List.range 20).map
    (fun i => { id := (i : Int), question := "q", answer := "a", category := 1, difficulty := 1 })

/-! ## Helper lemmas -/

/-- `insertById` grows the list by exactly one element. -/
theorem length_insertById (q : Question) (l : List Question) :
    (insertById q l).length = l.length + 1 := by
  induction l with
  | nil => rfl
  | cons x xs ih =>
      by_cases h : q.id ≤ x.id
      · simp [insertById, h]
      · simp [insertById, h, ih]

/-- Ordering the questions by id does not change how many there are. -/
theorem length_orderById (qs : List Question) :
    (orderById qs).length = qs.length := by
  induction qs with
  | nil => rfl
  | cons q qs ih =>
      show (insertById q (orderById qs)).length = qs.length + 1
      rw [length_insertById, ih]

/-- The empty needle occurs in every haystack. -/
theorem matchesSomewhere_nil {α : Type} [DecidableEq α] (l : List α) :
    matchesSomewhere ([] : List α) l = true := by
  induction l with
  | nil => rfl
  | cons h t ih => simp [matchesSomewhere, matchesAtStart]

/-- The empty string is a substring of every string. -/
theorem strContains_empty (s : String) : strContains s "" = true := by
  have h : "".toList = ([] : List Char) := rfl
  unfold strContains
  rw [h]
  exact matchesSomewhere_nil s.toList

/-- Taking `min k length` elements is the same as taking `k`. -/
theorem take_min_length {α : Type} (l : List α) (k : Nat) :
    l.take (min k l.length) = l.take k := by
  rcases Nat.le_total k l.length with h | h
  · rw [Nat.min_eq_left h]
  · rw [Nat.min_eq_right h, List.take_length, List.take_of_length_le h]

/-- A Python slice with non-negative bounds `[start : start + k]` is
drop-then-take. -/
theorem pySlice_nonneg {α : Type} (l : List α) (start : Int) (k : Nat) (h : 0 ≤ start) :
    pySlice l start (start + (k : Int)) = (l.drop start.toNat).take k := by
  have h1 : ¬ start < 0 := by omega
  have h2 : ¬ start + (k : Int) < 0 := by omega
  simp only [pySlice, pyClamp, h1, h2, if_false, Int.toNat_add_nat h k]
  rcases Nat.le_total start.toNat l.length with hle | hlt
  · rw [Nat.min_eq_left hle]
    have hmin : min (start.toNat + k) l.length - start.toNat
        = min k ((l.drop start.toNat).length) := by
      rw [List.length_drop]; omega
    rw [hmin, take_min_length]
  · rw [Nat.min_eq_right hlt, List.drop_length,
        List.drop_eq_nil_of_le hlt]
    simp

/-! ## Claim theorems -/

/-- C1 (code bug): POST /quizzes with a well-formed body and at least one
eligible question does NOT answer success with a question: the set
comprehension over dict-valued `format()` raises `TypeError`, which the
bare `except` converts to a 400 response.  At the failing input (store
`db1` with one question of category 1, body
`{quiz_category: 1, previous_questions: []}`) the code produces 400,
against the claim, the spec and the repository test `test_quiz`.  The
other half of the claim does hold: when every eligible id is excluded, the
response is success with a null question. -/
theorem get_quiz_eligible_question_bug :
    get_quiz (some { previous_questions := some [], quiz_category := some (some 1),
                     otherKeys := false }) db1 = Resp.error 400
    ∧ get_quiz (some { previous_questions := some [5], quiz_category := some (some 1),
                       otherKeys := false }) db1
        = Resp.ok { success := true, question := none } := by
  exact ⟨rfl, rfl⟩

/-- C2 (counterexample): deleting an id with no matching question row does
NOT signal 404.  In store `db1` no question has id 1000, yet the handler
answers 422: the internal `abort(404)` is raised inside the `try` block and
the bare `except` re-raises it as 422. -/
theorem delete_missing_id_not_404 :
    db1.questions.filter (fun q => q.id == 1000) = []
    ∧ delete_question 1000 db1 = Resp.error 422
    ∧ delete_question 1000 db1 ≠ Resp.error 404 := by
  decide

/-- C2 (amended): for every id with no matching question row, DELETE
/questions/{id} signals 422 (unprocessable), never 404: the not-found abort
is swallowed by the broad exception handler. -/
theorem delete_missing_id_yields_422 (question_id : Int) (db : DB)
    (h : db.questions.filter (fun q => q.id == question_id) = []) :
    delete_question question_id db = Resp.error 422 := by
  unfold delete_question
  rw [h]

/-- Witness for C2: deleting id 1000 from `db1` concretely yields 422. -/
theorem delete_missing_id_yields_422_witness :
    delete_question 1000 db1 = Resp.error 422 :=
  delete_missing_id_yields_422 1000 db1 (by decide)

/-- C3 (counterexample): page -1 is out of range for a 20-question store
(its pages are 1 and 2), yet the helper returns a non-empty slice (the
Python slice `[-20:-10]`), not the empty sequence. -/
theorem paginate_negative_page_not_empty :
    paginate_questions (-1) qs20 = (qs20.map Question.format).take 10
    ∧ (qs20.map Question.format).take 10 ≠ [] := by
  decide

/-- C3 (amended): for every page `p ≥ 1` the helper returns the
sub-sequence at offset `(p-1)*10` of length at most 10 (so a page past the
end yields the empty sequence, never an error), and a missing or
non-integer page argument defaults to 1; pages `p ≤ 0`, however, are
interpreted with Python negative-index semantics and can return a
non-empty slice measured from the end of the sequence. -/
theorem paginate_pos_page_slice (p : Int) (selection : List Question) (h : 1 ≤ p) :
    paginate_questions p selection
      = ((selection.map Question.format).drop (((p - 1) * 10).toNat)).take 10
    ∧ (paginate_questions p selection).length ≤ 10
    ∧ getPageArg none = 1 := by
  have hstart : (0 : Int) ≤ (p - 1) * 10 := by omega
  have heq : paginate_questions p selection
      = ((selection.map Question.format).drop (((p - 1) * 10).toNat)).take 10 := by
    have h10 := pySlice_nonneg (selection.map Question.format) ((p - 1) * 10) 10 hstart
    norm_num at h10
    simpa [paginate_questions, QUESTIONS_PER_PAGE] using h10
  refine ⟨heq, ?_, rfl⟩
  rw [heq, List.length_take]
  exact Nat.min_le_left _ _

/-- Witness for C3: page 1000 of the one-question store is the (empty)
slice at offset 9990, computed without error. -/
theorem paginate_pos_page_slice_witness :
    paginate_questions 1000 db1.questions
      = ((db1.questions.map Question.format).drop (((1000 - 1) * 10 : Int).toNat)).take 10
    ∧ (paginate_questions 1000 db1.questions).length ≤ 10
    ∧ getPageArg none = 1 :=
  paginate_pos_page_slice 1000 db1.questions (by norm_num)

/-- C4 (counterexample): a body whose `quiz_category` key is MISSING is not
treated as "no category filter": on the empty store, the missing key gives
a 400 response (`KeyError` caught by the bare `except`), while an explicit
falsy `quiz_category` of 0 gives the unfiltered success path (success with
a null question, since no question exists). -/
theorem quiz_missing_category_not_unfiltered :
    get_quiz (some { previous_questions := some [], quiz_category := none,
                     otherKeys := false }) emptyDB = Resp.error 400
    ∧ get_quiz (some { previous_questions := some [], quiz_category := some (some 0),
                       otherKeys := false }) emptyDB
        = Resp.ok { success := true, question := none } := by
  exact ⟨rfl, rfl⟩

/-- C4 (amended): for every body whose `quiz_category` is PRESENT and falsy
(0 or JSON null), the selection applies no category filter: exactly the
questions outside the exclusion list are eligible.  A missing
`quiz_category` key instead raises `KeyError` and yields 400. -/
theorem quizSelection_falsy_category_unfiltered (db : DB) (pq : List Int)
    (qc : Option Int) (h : quizCatTruthy qc = false) :
    quizSelection qc pq db = db.questions.filter (fun q => !(pq.contains q.id)) := by
  simp [quizSelection, h]

/-- Witness for C4: `quiz_category = 0` on `db1` selects the full
exclusion-filtered list. -/
theorem quizSelection_falsy_category_unfiltered_witness :
    quizSelection (some 0) [] db1 = db1.questions.filter (fun q => !(List.contains [] q.id)) :=
  quizSelection_falsy_category_unfiltered db1 [] (some 0) rfl

/-- C5 (counterexample): a parsed body that is the EMPTY dict (so
`previous_questions` is missing) is falsy, the whole `if body:` block is
skipped, and the view returns Python `None`: Flask turns that into a 500
response, not the claimed 400. -/
theorem quiz_empty_body_500 :
    get_quiz (some { previous_questions := none, quiz_category := none,
                     otherKeys := false }) db1 = Resp.error 500
    ∧ get_quiz (some { previous_questions := none, quiz_category := none,
                       otherKeys := false }) db1 ≠ Resp.error 400 := by
  decide

/-- C5 (amended): an absent request body signals 400, and a parsed body
that is truthy (non-empty) but lacks the `previous_questions` key signals
400 (`KeyError` caught by the bare `except`); an EMPTY parsed body,
however, falls through the `if body:` guard and produces a 500, not a
400. -/
theorem quiz_malformed_body_400 (db : DB) (b : Option QuizBody)
    (h : b = none ∨ ∃ bb, b = some bb ∧ bb.truthy = true ∧ bb.previous_questions = none) :
    get_quiz b db = Resp.error 400 := by
  rcases h with rfl | ⟨bb, rfl, ht, hp⟩
  · rfl
  · simp [get_quiz, ht, hp]

/-- Witness for C5: the absent body concretely yields 400. -/
theorem quiz_malformed_body_400_witness :
    get_quiz none db1 = Resp.error 400 :=
  quiz_malformed_body_400 db1 none (Or.inl rfl)

/-- C6: GET /questions answers 404 exactly when the computed page slice is
empty; on a non-empty slice it answers success with the slice,
`total_questions` equal to the count of ALL questions in the store (not the
page length), the category mapping, and a null `current_category`. -/
theorem retrieve_questions_characterization (page : Int) (db : DB) :
    retrieve_questions page db =
      (if paginate_questions page (orderById db.questions) = [] then Resp.error 404
       else Resp.ok { success := true,
                      questions := paginate_questions page (orderById db.questions),
                      total_questions := db.questions.length,
                      categories := (orderByIdCat db.categories).map (fun c => (c.id, c.type)),
                      current_category := none }) := by
  simp only [retrieve_questions, List.length_eq_zero, length_orderById]

/-- C7 (counterexample): no error handler is registered for status 500, so
a 500 response is the framework default page, not the common JSON
envelope. -/
theorem errorhandler_500_missing :
    errorhandler 500 = none := by
  decide

/-- C7 (amended): for each of the codes 400, 404, 405 and 422 (but not
500), the registered handler produces the common envelope
`{success: false, error: code, message: <string>}`. -/
theorem errorhandler_envelope (code : Nat)
    (h : code = 400 ∨ code = 404 ∨ code = 405 ∨ code = 422) :
    (errorhandler code).map (fun e => (e.success, e.error)) = some (false, code) := by
  rcases h with rfl | rfl | rfl | rfl <;> rfl

/-- Witness for C7: the 404 handler carries the envelope. -/
theorem errorhandler_envelope_witness :
    (errorhandler 404).map (fun e => (e.success, e.error)) = some (false, 404) :=
  errorhandler_envelope 404 (Or.inr (Or.inl rfl))

/-- C8: for every existing category id whose page slice of matching
questions is empty, GET /categories/{id}/questions answers 200 with
success and an empty questions list - there is no empty-page 404 check,
unlike GET /questions. -/
theorem questions_by_category_empty_ok (category_id page : Int) (db : DB)
    (hcat : (db.categories.find? (fun c => c.id == category_id)).isSome = true)
    (hempty : paginate_questions page
        (orderById (db.questions.filter (fun q => q.category == category_id))) = []) :
    questions_by_category category_id page db =
      Resp.ok { success := true, questions := [],
                total_questions := (db.questions.filter (fun q => q.category == category_id)).length,
                current_category := category_id } := by
  cases hf : db.categories.find? (fun c => c.id == category_id) with
  | none => rw [hf] at hcat; exact absurd hcat (by simp)
  | some c => simp [questions_by_category, hf, hempty, length_orderById]

/-- Witness for C8: category 1 exists in `catOnlyDB` and has no questions,
and the endpoint answers success with an empty list. -/
theorem questions_by_category_empty_ok_witness :
    questions_by_category 1 1 catOnlyDB =
      Resp.ok { success := true, questions := [],
                total_questions := (catOnlyDB.questions.filter (fun q => q.category == 1)).length,
                current_category := 1 } :=
  questions_by_category_empty_ok 1 1 catOnlyDB (by decide) (by decide)

/-- C9: for page -1 and any question sequence of at least 20 items, the
slice offset is negative and Python slicing wraps around: the helper
returns the ten items starting 20 from the end - a non-empty page, not the
empty sequence. -/
theorem paginate_negative_wraps (selection : List Question)
    (h : 20 ≤ selection.length) :
    paginate_questions (-1) selection
      = ((selection.map Question.format).drop (selection.length - 20)).take 10
    ∧ 0 < (paginate_questions (-1) selection).length := by
  have hlen : (selection.map Question.format).length = selection.length :=
    List.length_map _ _
  have heq : paginate_questions (-1) selection
      = ((selection.map Question.format).drop (selection.length - 20)).take 10 := by
    show pySlice (selection.map Question.format)
        (((-1 : Int) - 1) * QUESTIONS_PER_PAGE)
        (((-1 : Int) - 1) * QUESTIONS_PER_PAGE + QUESTIONS_PER_PAGE) = _
    have h20 : ((-1 : Int) - 1) * QUESTIONS_PER_PAGE = -20 := by
      norm_num [QUESTIONS_PER_PAGE]
    have h10 : ((-1 : Int) - 1) * QUESTIONS_PER_PAGE + QUESTIONS_PER_PAGE = -10 := by
      norm_num [QUESTIONS_PER_PAGE]
    rw [h20, h10] at *
    simp only [pySlice, pyClamp, hlen]
    norm_num
    have hs : ((-20 : Int) + selection.length).toNat = selection.length - 20 := by omega
    have he : ((-10 : Int) + selection.length).toNat = selection.length - 10 := by omega
    rw [hs, he]
    have hd : selection.length - 10 - (selection.length - 20) = 10 := by omega
    rw [hd]
  refine ⟨heq, ?_⟩
  rw [heq, List.length_take, List.length_drop, hlen]
  omega

/-- Witness for C9: on the concrete 20-question store the helper returns a
non-empty page for page -1. -/
theorem paginate_negative_wraps_witness :
    paginate_questions (-1) qs20
      = ((qs20.map Question.format).drop (qs20.length - 20)).take 10
    ∧ 0 < (paginate_questions (-1) qs20).length :=
  paginate_negative_wraps qs20 (by decide)

/-- C10: a POST /questions body whose `searchTerm` is the empty string
takes the search branch, and since the empty string is a substring of
every question text, the endpoint returns every question in the store with
`total_questions` equal to the full count. -/
theorem search_empty_term_returns_all (db : DB) (body : PostQuestionsBody)
    (h : body.searchTerm = some "") :
    search_questions body db =
      PostQuestionsResult.search (db.questions.map Question.format) db.questions.length := by
  have hf : db.questions.filter (fun q => strContains q.question "") = db.questions :=
    List.filter_eq_self.mpr (fun a _ => strContains_empty a.question)
  simp [search_questions, h, hf]

/-- Witness for C10: the empty search term on `db1` returns its single
question and a count of 1. -/
theorem search_empty_term_returns_all_witness :
    search_questions { searchTerm := some "", question := none, answer := none,
                       category := none, difficulty := none } db1 =
      PostQuestionsResult.search (db1.questions.map Question.format) db1.questions.length :=
  search_empty_term_returns_all db1 _ rfl

end Trivia
